import Mathlib

/-!
Shallow embedding of `src/dropdown/dropdown.ts` (class `NgbDropdown` with its
helper directives `NgbDropdownMenu` / `NgbDropdownAnchor`).

Modelling conventions:
* The directive's mutable fields become fields of the record `St`; every
  method of the class becomes a Lean function `St → ... → St`.
* DOM elements are not modelled geometrically.  What the claims need is
  observed through dedicated fields: whether the detached body container
  element exists (`bodyContainer`), which placement class is currently set
  on the host element (`hostClass`), the menu directive's `placement`
  field (`menuPlacement`), and the `position` style placed on the menu
  element (`menuPositionStyle`).
* `renderer.listen('document', 'click', ...)` hands back a removal closure.
  Live document-click listeners are modelled as a list of distinct ids
  (`liveSubs`, fresh ids drawn from `nextId`); the field
  `_outsideClickListener` stores the id its stored removal closure would
  remove (`none` = the field was never assigned).
* `positionElements` lives in `../util/positioning` (outside the given
  source file); it is kept fully abstract as a parameter (`Env`), since no
  claim depends on the coordinates it returns, only on whether it is
  consulted (counted by `posCalls`).
* Angular's `EventEmitter` output `openChange` is modelled by the list
  `events` of emitted payloads, in emission order.
-/

/-- The `autoClose` input: `boolean | 'outside' | 'inside'`. -/
inductive AutoClose
  | abool : Bool → AutoClose
  | inside
  | outside
deriving DecidableEq

/-- JavaScript truthiness of an `autoClose` value: every value except the
boolean `false` is truthy (the strings are non-empty). -/
def AutoClose.truthy : AutoClose → Bool
  | .abool b => b
  | .inside => true
  | .outside => true

/-- The `placement` input: `PlacementArray = Placement | Placement[]`,
where `Placement` is a string such as "top-left". -/
inductive PlacementArray
  | single : String → PlacementArray
  | array : List String → PlacementArray
deriving DecidableEq

/-- The `container` input: `null | 'body'`; `some .body` is `'body'`. -/
inductive ContainerSel
  | body
deriving DecidableEq

/-- A pointer click event as `closeFromClick` inspects it: its `button`
index and whether the anchor / the menu element contains its target
(the results of `element.contains($event.target)`). -/
structure ClickEvent where
  button : Nat
  fromToggle : Bool
  fromMenu : Bool
deriving DecidableEq

/-- A JS `SimpleChange` record.  In Angular, `isFirstChange` is a *method*
of the class; `firstChange` below is the boolean that method returns. -/
structure SimpleChange where
  firstChange : Bool
deriving DecidableEq

/-- The `SimpleChanges` argument of `ngOnChanges`: one optional entry per
changed input that `ngOnChanges` reads. -/
structure SimpleChanges where
  container : Option SimpleChange
  placement : Option SimpleChange
deriving DecidableEq

/-- JS truthiness of the expression `change.isFirstChange` as the source
writes it (line 180: no call parentheses): reading the method yields the
function object itself, which is always truthy. -/
def isFirstChangeRefTruthy (_c : SimpleChange) : Bool := true

/-- The state of one `NgbDropdown` directive instance together with the
observable effects it has produced. -/
structure St where
  /-- the `_open` field (`@Input('open')`). -/
  _open : Bool
  /-- the `autoClose` input. -/
  autoClose : AutoClose
  /-- the `placement` input (mutated by `_applyPlacementClasses`). -/
  placement : PlacementArray
  /-- the `container` input. -/
  container : Option ContainerSel
  /-- whether a `NgbDropdownMenu` content child is registered
  (`this._menu` / `this._menuElement` non-null). -/
  menuPresent : Bool
  /-- whether the `_bodyContainer` element currently exists (non-null);
  `true` is the spec's `containerMode = 'detached'`. -/
  bodyContainer : Bool
  /-- the id that the removal closure stored in `_outsideClickListener`
  removes; `none` if the field was never assigned. -/
  outsideClickListener : Option Nat
  /-- ids of the document-click listeners currently attached. -/
  liveSubs : List Nat
  /-- fresh-id source for listener registrations. -/
  nextId : Nat
  /-- whether the `ngZone.onStable` subscription is live. -/
  zoneSub : Bool
  /-- payloads emitted on the `openChange` output, in order. -/
  events : List Bool
  /-- the placement class (`"dropup"`/`"dropdown"`) currently set on the
  host element by `_applyPlacementClasses`; `none` before the first
  application. -/
  hostClass : Option String
  /-- the placement class currently set on the body container element. -/
  bodyContainerClass : Option String
  /-- the menu directive's `placement` field (initially `'bottom'`). -/
  menuPlacement : String
  /-- the `position` style set on the menu element (`some "static"` after
  `_applyContainer('body')`, removed by `_resetContainer`). -/
  menuPositionStyle : Option String
  /-- number of times `positionElements` has been invoked. -/
  posCalls : Nat
deriving DecidableEq

/-- The abstract collaborator `positionElements` from `util/positioning`:
given the current placement configuration and the `appendToBody` flag it
returns the placement actually applied.  (Its element arguments carry
geometry only and are elided.) -/
structure Env where
  positionElements : PlacementArray → Bool → String

/-- `isOpen()`. -/
def isOpen (s : St) : Bool := s._open

/-- `_isEventFromToggle($event)`: delegates to
`this._anchor.isEventFrom($event)`, i.e. anchor containment of the target.
(An anchor content child is assumed present, as the host template
requires one.) -/
def eventFromToggle (_s : St) (ev : ClickEvent) : Bool := ev.fromToggle

/-- `_isEventFromMenu($event)`: `this._menu ? this._menu.isEventFrom($event) : false`. -/
def eventFromMenu (s : St) (ev : ClickEvent) : Bool :=
  if s.menuPresent then ev.fromMenu else false

/-- `_registerListener()`: attaches a fresh document-click listener and
stores its removal closure in `_outsideClickListener`. -/
def registerListener (s : St) : St :=
  { s with
    liveSubs := s.liveSubs ++ [s.nextId]
    outsideClickListener := some s.nextId
    nextId := s.nextId + 1 }

/-- The call `this._outsideClickListener()` in `close()`: runs the stored
removal closure, detaching the listener it was created for (a removal
closure is idempotent, like `removeEventListener`).  The `none` case
(field never assigned) would throw in JS; it is unreachable whenever
`close` runs with `_open = true` (see the reachability invariant). -/
def callOutsideClickListener (s : St) : St :=
  match s.outsideClickListener with
  | none => s
  | some id => { s with liveSubs := s.liveSubs.erase id }

/-- `_resetContainer()`: moves the menu element back under the host and
strips its positioning styles, then removes and forgets the body
container element if it exists. -/
def resetContainer (s : St) : St :=
  let s1 := if s.menuPresent then { s with menuPositionStyle := none } else s
  if s1.bodyContainer then
    { s1 with bodyContainer := false, bodyContainerClass := none }
  else s1

/-- `_applyContainer(this.container)`: resets first, then when the
configuration says `'body'`, creates the detached container, applies the
style overrides and moves the menu element into it. -/
def applyContainer (s : St) : St :=
  let s1 := resetContainer s
  match s1.container with
  | some .body =>
      { s1 with bodyContainer := true, menuPositionStyle := some "static" }
  | none => s1

/-- The test `placement.search('^top') !== -1` of the source: the regex
`^top` matches exactly when the placement string starts with `"top"`
(computed structurally over the character list). -/
def startsWithTop (p : String) : Bool :=
  "top".data.isPrefixOf p.data

/-- `_applyPlacementClasses(placement?)`: no-op without a registered menu;
otherwise defaults the argument to the first configured candidate,
records the chosen placement on `this.placement` and on the menu
directive, and swaps the `dropup`/`dropdown` class on the host element
(and on the body container when present).  `placement.search('^top')`
succeeds exactly when the string starts with `"top"`.  (An empty
candidate array is out of scope: the source would read `undefined`.) -/
def applyPlacementClasses (s : St) (pl? : Option String) : St :=
  if s.menuPresent then
    let pl := match pl? with
      | some p => p
      | none =>
          match s.placement with
          | .single p => p
          | .array ps => ps.headD ""
    let cls := if startsWithTop pl then "dropup" else "dropdown"
    let s1 := { s with
      placement := .single pl
      menuPlacement := pl
      hostClass := some cls }
    if s1.bodyContainer then { s1 with bodyContainerClass := some cls } else s1
  else s

/-- `_positionMenu()`: only when open with a registered menu, asks
`positionElements` for the placement (targeting the body container when
one exists) and applies the returned placement's classes. -/
def positionMenu (env : Env) (s : St) : St :=
  if isOpen s && s.menuPresent then
    let res := env.positionElements s.placement (s.container == some .body)
    applyPlacementClasses { s with posCalls := s.posCalls + 1 } (some res)
  else s

/-- `open()`: no-op when already open; otherwise sets `_open`, applies the
container, registers the outside-click listener, positions the menu and
emits `true`. -/
def openDd (env : Env) (s : St) : St :=
  if !s._open then
    let s1 := { s with _open := true }
    let s2 := applyContainer s1
    let s3 := registerListener s2
    let s4 := positionMenu env s3
    { s4 with events := s4.events ++ [true] }
  else s

/-- `close()`: no-op when already closed; otherwise clears `_open`, resets
the container, runs the stored outside-click removal closure and emits
`false`. -/
def close (s : St) : St :=
  if s._open then
    let s1 := { s with _open := false }
    let s2 := resetContainer s1
    let s3 := callOutsideClickListener s2
    { s3 with events := s3.events ++ [false] }
  else s

/-- `toggle()`. -/
def toggle (env : Env) (s : St) : St :=
  if isOpen s then close s else openDd env s

/-- `closeFromClick($event)`: the dismissal decision, mirroring the
`if`/`else if` chain of the source. -/
def closeFromClick (s : St) (ev : ClickEvent) : St :=
  if s.autoClose.truthy && ev.button != 2 && !(eventFromToggle s ev) then
    if s.autoClose == .abool true then close s
    else if s.autoClose == .inside && eventFromMenu s ev then close s
    else if s.autoClose == .outside && !(eventFromMenu s ev) then close s
    else s
  else s

/-- `closeFromOutsideEsc()`: closes whenever `autoClose` is truthy. -/
def closeFromOutsideEsc (s : St) : St :=
  if s.autoClose.truthy then close s else s

/-- `ngOnDestroy()`: resets the container and releases the `onStable`
(zone) subscription — and nothing else. -/
def ngOnDestroy (s : St) : St :=
  { resetContainer s with zoneSub := false }

/-- `ngOnInit()`: applies the configured placement classes, and when
configured initially open, registers the outside-click listener. -/
def ngOnInit (s : St) : St :=
  let s1 := applyPlacementClasses s none
  if s1._open then registerListener s1 else s1

/-- The guard of the placement branch of `ngOnChanges`, exactly as the
source writes it: `changes.placement && !changes.placement.isFirstChange`.
The method reference is read without being called, so the negation is of
a function object's truthiness. -/
def placementChangeGuard (c : Option SimpleChange) : Bool :=
  match c with
  | some ch => !(isFirstChangeRefTruthy ch)
  | none => false

/-- `ngOnChanges(changes)`: the changed input values have already been
written to the fields by the framework when the hook runs; `changes`
carries the per-input change records. -/
def ngOnChanges (s : St) (changes : SimpleChanges) : St :=
  let s1 := if changes.container.isSome && s._open then applyContainer s else s
  if placementChangeGuard changes.placement then
    applyPlacementClasses s1 none
  else s1

/-- The configuration the constructor copies from `NgbDropdownConfig`
plus the `open` input's initial value. -/
structure Config where
  _open : Bool
  placement : PlacementArray
  container : Option ContainerSel
  autoClose : AutoClose

/-- The state right after the constructor ran (inputs bound, zone
subscription taken, nothing emitted, no listener, no body container). -/
def initState (cfg : Config) (menuPresent : Bool) : St :=
  { _open := cfg._open
    autoClose := cfg.autoClose
    placement := cfg.placement
    container := cfg.container
    menuPresent := menuPresent
    bodyContainer := false
    outsideClickListener := none
    liveSubs := []
    nextId := 0
    zoneSub := true
    events := []
    hostClass := none
    bodyContainerClass := none
    menuPlacement := "bottom"
    menuPositionStyle := none
    posCalls := 0 }

/-- Reachable directive states: initialisation followed by any sequence
of the public entry points.  Input rebinding covers `placement`,
`container` and `autoClose` (per the spec's lifecycle, §3, `isOpen` is
mutated only through `open()`/`close()`/`toggle()`). -/
inductive Reachable (env : Env) : St → Prop
  | init (cfg : Config) (mp : Bool) : Reachable env (ngOnInit (initState cfg mp))
  | openStep (s : St) : Reachable env s → Reachable env (openDd env s)
  | closeStep (s : St) : Reachable env s → Reachable env (close s)
  | toggleStep (s : St) : Reachable env s → Reachable env (toggle env s)
  | clickStep (s : St) (ev : ClickEvent) :
      Reachable env s → Reachable env (closeFromClick s ev)
  | escStep (s : St) : Reachable env s → Reachable env (closeFromOutsideEsc s)
  | stableStep (s : St) : Reachable env s → Reachable env (positionMenu env s)
  | inputChange (s : St) (pl : PlacementArray) (ct : Option ContainerSel)
      (ac : AutoClose) (chs : SimpleChanges) :
      Reachable env s →
      Reachable env
        (ngOnChanges { s with placement := pl, container := ct, autoClose := ac } chs)
  | destroyStep (s : St) : Reachable env s → Reachable env (ngOnDestroy s)

/-- A concrete environment: `positionElements` always answers
`"bottom-left"`. -/
def env0 : Env := ⟨fun _ _ => "bottom-left"⟩

/-- The `NgbDropdownConfig` defaults (placement `'bottom-left'`,
`container` null, `autoClose` true) with the `open` input's default
`false`. -/
def cfgDefault : Config :=
  ⟨false, .single "bottom-left", none, .abool true⟩

/-- A freshly initialised, closed dropdown with a menu child. -/
def s0 : St := ngOnInit (initState cfgDefault true)

/-- `s0` after one `open()` call. -/
def s1open : St := openDd env0 s0

/-- An initially-open dropdown with `autoClose = true` and a menu. -/
def sAcTrue : St :=
  ngOnInit (initState ⟨true, .single "bottom-left", none, .abool true⟩ true)

/-- An initially-open dropdown with `autoClose = 'inside'` and a menu. -/
def sInside : St :=
  ngOnInit (initState ⟨true, .single "bottom-left", none, .inside⟩ true)

/-- An initially-open dropdown with `autoClose = 'inside'` and no menu
child registered. -/
def sInsideNoMenu : St :=
  ngOnInit (initState ⟨true, .single "bottom-left", none, .inside⟩ false)

/-- An initially-open dropdown with `autoClose = false` and a menu. -/
def sAcFalse : St :=
  ngOnInit (initState ⟨true, .single "bottom-left", none, .abool false⟩ true)

/-- An initially-open dropdown with `autoClose = 'outside'` and a menu. -/
def sOutside : St :=
  ngOnInit (initState ⟨true, .single "bottom-left", none, .outside⟩ true)

/-- A primary-button click strictly outside both anchor and menu. -/
def evOutside : ClickEvent := ⟨0, false, false⟩

/-- A primary-button click originating from the menu. -/
def evMenu : ClickEvent := ⟨0, false, true⟩

/-- A secondary-button (`button = 2`) click strictly outside both anchor
and menu. -/
def evRightOutside : ClickEvent := ⟨2, false, false⟩

/-- A closed dropdown whose `placement` input has just been rebound to
`'top-left'` (the framework writes the input before calling
`ngOnChanges`), while the host still carries the `dropdown` class from
the previous placement application. -/
def c2s : St :=
  { initState ⟨false, .single "top-left", none, .abool true⟩ true with
    hostClass := some "dropdown" }

/-- The `SimpleChanges` record for that rebinding: a `placement` change
that is not the first one. -/
def c2chs : SimpleChanges := ⟨none, some ⟨false⟩⟩

/-- The spec's safety invariant on controller states: a detached body
container only while open; while open the removal closure is assigned;
while closed no live listener; and at all times at most one live
listener, which the stored removal closure removes. -/
def CtrlInv (s : St) : Prop :=
  (s.bodyContainer = true → s._open = true) ∧
  (s._open = true → s.outsideClickListener.isSome = true) ∧
  (s._open = false → s.liveSubs = []) ∧
  (s.liveSubs = [] ∨ ∃ id, s.outsideClickListener = some id ∧ s.liveSubs = [id])

/-! ### Projection lemmas for the private helper methods -/

@[simp] lemma resetContainer_open (s : St) : (resetContainer s)._open = s._open := by
  unfold resetContainer
  by_cases hm : s.menuPresent <;> by_cases hb : s.bodyContainer <;> simp [hm, hb]

@[simp] lemma resetContainer_liveSubs (s : St) :
    (resetContainer s).liveSubs = s.liveSubs := by
  unfold resetContainer
  by_cases hm : s.menuPresent <;> by_cases hb : s.bodyContainer <;> simp [hm, hb]

@[simp] lemma resetContainer_listener (s : St) :
    (resetContainer s).outsideClickListener = s.outsideClickListener := by
  unfold resetContainer
  by_cases hm : s.menuPresent <;> by_cases hb : s.bodyContainer <;> simp [hm, hb]

@[simp] lemma resetContainer_events (s : St) :
    (resetContainer s).events = s.events := by
  unfold resetContainer
  by_cases hm : s.menuPresent <;> by_cases hb : s.bodyContainer <;> simp [hm, hb]

@[simp] lemma resetContainer_container (s : St) :
    (resetContainer s).container = s.container := by
  unfold resetContainer
  by_cases hm : s.menuPresent <;> by_cases hb : s.bodyContainer <;> simp [hm, hb]

@[simp] lemma resetContainer_bodyContainer (s : St) :
    (resetContainer s).bodyContainer = false := by
  unfold resetContainer
  by_cases hm : s.menuPresent <;> by_cases hb : s.bodyContainer <;> simp [hm, hb]

@[simp] lemma resetContainer_menuPresent (s : St) :
    (resetContainer s).menuPresent = s.menuPresent := by
  unfold resetContainer
  by_cases hm : s.menuPresent <;> by_cases hb : s.bodyContainer <;> simp [hm, hb]

@[simp] lemma resetContainer_nextId (s : St) :
    (resetContainer s).nextId = s.nextId := by
  unfold resetContainer
  by_cases hm : s.menuPresent <;> by_cases hb : s.bodyContainer <;> simp [hm, hb]

@[simp] lemma resetContainer_zoneSub (s : St) :
    (resetContainer s).zoneSub = s.zoneSub := by
  unfold resetContainer
  by_cases hm : s.menuPresent <;> by_cases hb : s.bodyContainer <;> simp [hm, hb]

lemma applyContainer_of_none (s : St) (h : s.container = none) :
    applyContainer s = resetContainer s := by
  unfold applyContainer
  simp [h]

lemma applyContainer_of_body (s : St) (h : s.container = some ContainerSel.body) :
    applyContainer s =
      { resetContainer s with bodyContainer := true, menuPositionStyle := some "static" } := by
  unfold applyContainer
  simp [h]

@[simp] lemma applyContainer_open (s : St) : (applyContainer s)._open = s._open := by
  cases h : s.container with
  | none => simp [applyContainer_of_none s h]
  | some c => cases c; simp [applyContainer_of_body s h]

@[simp] lemma applyContainer_liveSubs (s : St) :
    (applyContainer s).liveSubs = s.liveSubs := by
  cases h : s.container with
  | none => simp [applyContainer_of_none s h]
  | some c => cases c; simp [applyContainer_of_body s h]

@[simp] lemma applyContainer_listener (s : St) :
    (applyContainer s).outsideClickListener = s.outsideClickListener := by
  cases h : s.container with
  | none => simp [applyContainer_of_none s h]
  | some c => cases c; simp [applyContainer_of_body s h]

@[simp] lemma applyContainer_events (s : St) :
    (applyContainer s).events = s.events := by
  cases h : s.container with
  | none => simp [applyContainer_of_none s h]
  | some c => cases c; simp [applyContainer_of_body s h]

@[simp] lemma applyContainer_container (s : St) :
    (applyContainer s).container = s.container := by
  cases h : s.container with
  | none => simp [applyContainer_of_none s h, h]
  | some c => cases c; simp [applyContainer_of_body s h, h]

@[simp] lemma applyContainer_menuPresent (s : St) :
    (applyContainer s).menuPresent = s.menuPresent := by
  cases h : s.container with
  | none => simp [applyContainer_of_none s h]
  | some c => cases c; simp [applyContainer_of_body s h]

@[simp] lemma applyContainer_nextId (s : St) :
    (applyContainer s).nextId = s.nextId := by
  cases h : s.container with
  | none => simp [applyContainer_of_none s h]
  | some c => cases c; simp [applyContainer_of_body s h]

@[simp] lemma callOutsideClickListener_open (s : St) :
    (callOutsideClickListener s)._open = s._open := by
  unfold callOutsideClickListener
  cases s.outsideClickListener <;> simp

@[simp] lemma callOutsideClickListener_bodyContainer (s : St) :
    (callOutsideClickListener s).bodyContainer = s.bodyContainer := by
  unfold callOutsideClickListener
  cases s.outsideClickListener <;> simp

@[simp] lemma callOutsideClickListener_events (s : St) :
    (callOutsideClickListener s).events = s.events := by
  unfold callOutsideClickListener
  cases s.outsideClickListener <;> simp

@[simp] lemma callOutsideClickListener_listener (s : St) :
    (callOutsideClickListener s).outsideClickListener = s.outsideClickListener := by
  unfold callOutsideClickListener
  cases h : s.outsideClickListener <;> simp [h]

@[simp] lemma applyPlacementClasses_open (s : St) (p : Option String) :
    (applyPlacementClasses s p)._open = s._open := by
  unfold applyPlacementClasses
  by_cases hm : s.menuPresent <;> by_cases hb : s.bodyContainer <;> simp [hm, hb]

@[simp] lemma applyPlacementClasses_bodyContainer (s : St) (p : Option String) :
    (applyPlacementClasses s p).bodyContainer = s.bodyContainer := by
  unfold applyPlacementClasses
  by_cases hm : s.menuPresent <;> by_cases hb : s.bodyContainer <;> simp [hm, hb]

@[simp] lemma applyPlacementClasses_liveSubs (s : St) (p : Option String) :
    (applyPlacementClasses s p).liveSubs = s.liveSubs := by
  unfold applyPlacementClasses
  by_cases hm : s.menuPresent <;> by_cases hb : s.bodyContainer <;> simp [hm, hb]

@[simp] lemma applyPlacementClasses_listener (s : St) (p : Option String) :
    (applyPlacementClasses s p).outsideClickListener = s.outsideClickListener := by
  unfold applyPlacementClasses
  by_cases hm : s.menuPresent <;> by_cases hb : s.bodyContainer <;> simp [hm, hb]

@[simp] lemma applyPlacementClasses_events (s : St) (p : Option String) :
    (applyPlacementClasses s p).events = s.events := by
  unfold applyPlacementClasses
  by_cases hm : s.menuPresent <;> by_cases hb : s.bodyContainer <;> simp [hm, hb]

@[simp] lemma applyPlacementClasses_menuPresent (s : St) (p : Option String) :
    (applyPlacementClasses s p).menuPresent = s.menuPresent := by
  unfold applyPlacementClasses
  by_cases hm : s.menuPresent <;> by_cases hb : s.bodyContainer <;> simp [hm, hb]

@[simp] lemma positionMenu_open (env : Env) (s : St) :
    (positionMenu env s)._open = s._open := by
  unfold positionMenu
  split <;> simp

@[simp] lemma positionMenu_bodyContainer (env : Env) (s : St) :
    (positionMenu env s).bodyContainer = s.bodyContainer := by
  unfold positionMenu
  split <;> simp

@[simp] lemma positionMenu_liveSubs (env : Env) (s : St) :
    (positionMenu env s).liveSubs = s.liveSubs := by
  unfold positionMenu
  split <;> simp

@[simp] lemma positionMenu_listener (env : Env) (s : St) :
    (positionMenu env s).outsideClickListener = s.outsideClickListener := by
  unfold positionMenu
  split <;> simp

@[simp] lemma positionMenu_events (env : Env) (s : St) :
    (positionMenu env s).events = s.events := by
  unfold positionMenu
  split <;> simp

/-! ### Behaviour lemmas for the public transitions -/

lemma openDd_of_open (env : Env) (s : St) (h : s._open = true) :
    openDd env s = s := by
  simp [openDd, h]

@[simp] lemma openDd_open (env : Env) (s : St) : (openDd env s)._open = true := by
  by_cases h : s._open
  · simp [openDd, h]
  · simp only [Bool.not_eq_true] at h
    simp [openDd, h, registerListener]

@[simp] lemma close_open (s : St) : (close s)._open = false := by
  by_cases h : s._open
  · simp [close, h]
  · simp only [Bool.not_eq_true] at h
    simp [close, h]

lemma close_of_closed (s : St) (h : s._open = false) : close s = s := by
  simp [close, h]

lemma close_events (s : St) (h : s._open = true) :
    (close s).events = s.events ++ [false] := by
  simp [close, h]

lemma openDd_events (env : Env) (s : St) (h : s._open = false) :
    (openDd env s).events = s.events ++ [true] := by
  simp [openDd, h, registerListener]

/-! ### Claim theorems -/

/-- C5: Calling `open()` twice in a row is equivalent to calling it once —
the whole resulting state (including `_open`, the live listener list, the
container fields and the list of emitted `openChange` payloads) is
identical, so the second call is a no-op that emits nothing and registers
nothing. -/
theorem C5_open_idempotent (env : Env) (s : St) :
    openDd env (openDd env s) = openDd env s :=
  openDd_of_open env (openDd env s) (openDd_open env s)

/-- C10: Every `toggle()` call negates `isOpen` and appends exactly one
`openChange` payload equal to the new `isOpen` value; two consecutive
`toggle()` calls restore the original `isOpen` value. -/
theorem C10_toggle_involutive (env : Env) (s : St) :
    (toggle env s)._open = !s._open ∧
    (toggle env s).events = s.events ++ [!s._open] ∧
    (toggle env (toggle env s))._open = s._open := by
  by_cases h : s._open
  · refine ⟨?_, ?_, ?_⟩
    · simp [toggle, isOpen, h]
    · simp [toggle, isOpen, h, close_events s h]
    · simp [toggle, isOpen, h]
  · simp only [Bool.not_eq_true] at h
    refine ⟨?_, ?_, ?_⟩
    · simp [toggle, isOpen, h]
    · simp [toggle, isOpen, h, openDd_events env s h]
    · simp [toggle, isOpen, h]

/-- C9: The layout-stability re-placement routine `_positionMenu` never
changes `isOpen`; it is the identity when the dropdown is closed or when
no menu is registered; in particular a stability notification observed
after `close()` mutates nothing (and, state equality covering `posCalls`,
computes nothing). -/
theorem C9_positionMenu_frame (env : Env) (s : St) :
    (positionMenu env s)._open = s._open ∧
    (s._open = false → positionMenu env s = s) ∧
    (s.menuPresent = false → positionMenu env s = s) ∧
    positionMenu env (close s) = close s := by
  refine ⟨positionMenu_open env s, ?_, ?_, ?_⟩
  · intro h
    simp [positionMenu, isOpen, h]
  · intro h
    simp [positionMenu, isOpen, h]
  · simp [positionMenu, isOpen, close_open s]

/-- C9 witness: the frame property evaluated on the concrete closed
initial state. -/
theorem C9_witness :
    s0._open = false ∧ positionMenu env0 s0 = s0 ∧
    (positionMenu env0 s1open)._open = s1open._open ∧
    positionMenu env0 (close s1open) = close s1open := by
  refine ⟨by rfl, (C9_positionMenu_frame env0 s0).2.1 (by rfl),
    (C9_positionMenu_frame env0 s1open).1, (C9_positionMenu_frame env0 s1open).2.2.2⟩

/-- C7: With `autoClose = false`, no click of any origin or button and no
escape key press changes the state at all — both dismissal entry points
are the identity. -/
theorem C7_autoClose_false_inert (s : St) (h : s.autoClose = .abool false) :
    (∀ ev : ClickEvent, closeFromClick s ev = s) ∧ closeFromOutsideEsc s = s := by
  constructor
  · intro ev
    simp [closeFromClick, h, AutoClose.truthy]
  · simp [closeFromOutsideEsc, h, AutoClose.truthy]

/-- C7 witness: concrete open dropdown with `autoClose = false`; an
outside click, a menu click, a right click and escape all leave it
untouched. -/
theorem C7_witness :
    sAcFalse.autoClose = AutoClose.abool false ∧
    closeFromClick sAcFalse evOutside = sAcFalse ∧
    closeFromClick sAcFalse evMenu = sAcFalse ∧
    closeFromClick sAcFalse evRightOutside = sAcFalse ∧
    closeFromOutsideEsc sAcFalse = sAcFalse :=
  ⟨rfl, (C7_autoClose_false_inert sAcFalse rfl).1 evOutside,
    (C7_autoClose_false_inert sAcFalse rfl).1 evMenu,
    (C7_autoClose_false_inert sAcFalse rfl).1 evRightOutside,
    (C7_autoClose_false_inert sAcFalse rfl).2⟩

/-- C8: For every truthy `autoClose` value (`true`, `'inside'` or
`'outside'`) and the dropdown open, an escape key press closes it (the
handler takes no event, so this holds regardless of origin). -/
theorem C8_escape_closes (s : St) (h1 : s.autoClose.truthy = true)
    (h2 : s._open = true) :
    (closeFromOutsideEsc s)._open = false ∧
    (closeFromOutsideEsc s).events = s.events ++ [false] := by
  constructor
  · simp [closeFromOutsideEsc, h1, close_open]
  · simp [closeFromOutsideEsc, h1, close_events s h2]

/-- C8 witness: escape closes the concrete open dropdowns with
`autoClose = true`, `'inside'` and `'outside'`. -/
theorem C8_witness :
    sAcTrue._open = true ∧ sInside._open = true ∧ sOutside._open = true ∧
    (closeFromOutsideEsc sAcTrue)._open = false ∧
    (closeFromOutsideEsc sInside)._open = false ∧
    (closeFromOutsideEsc sOutside)._open = false :=
  ⟨rfl, rfl, rfl, (C8_escape_closes sAcTrue rfl rfl).1,
    (C8_escape_closes sInside rfl rfl).1, (C8_escape_closes sOutside rfl rfl).1⟩

/-- C6: With `autoClose = 'inside'` and the dropdown open: a primary
(button 0) click from the menu (and not from the anchor) closes; a click
strictly outside both anchor and menu never closes; and with no menu
registered the menu-origin check degrades to `false`, so `closeFromClick`
is the identity. -/
theorem C6_inside_dismissal (s : St) (ev : ClickEvent) (ho : s._open = true)
    (ha : s.autoClose = .inside) :
    (ev.button = 0 → ev.fromToggle = false → s.menuPresent = true →
      ev.fromMenu = true → (closeFromClick s ev)._open = false) ∧
    (ev.fromToggle = false → ev.fromMenu = false →
      (closeFromClick s ev)._open = true) ∧
    (s.menuPresent = false → closeFromClick s ev = s) := by
  refine ⟨?_, ?_, ?_⟩
  · intro hb ht hm hfm
    simp [closeFromClick, ha, AutoClose.truthy, eventFromToggle, eventFromMenu,
      hb, ht, hm, hfm, close_open]
  · intro ht hfm
    simp [closeFromClick, ha, AutoClose.truthy, eventFromToggle, eventFromMenu,
      ht, hfm, ho]
  · intro hm
    simp [closeFromClick, ha, AutoClose.truthy, eventFromMenu, hm]

/-- C6 witness: on the concrete open `'inside'` dropdown, a primary menu
click closes, an outside click leaves it open, and with no menu child the
dismissal handler is the identity. -/
theorem C6_witness :
    (closeFromClick sInside evMenu)._open = false ∧
    (closeFromClick sInside evOutside)._open = true ∧
    closeFromClick sInsideNoMenu evMenu = sInsideNoMenu :=
  ⟨(C6_inside_dismissal sInside evMenu rfl rfl).1 rfl rfl rfl rfl,
    (C6_inside_dismissal sInside evOutside rfl rfl).2.1 rfl rfl,
    (C6_inside_dismissal sInsideNoMenu evMenu rfl rfl).2.2 rfl⟩

/-- C3 counterexample: with `autoClose = true` and the dropdown open, a
secondary-button (`button = 2`) click that does **not** originate from the
anchor/toggle still leaves the dropdown open — the `button !== 2`
exemption in `closeFromClick` is unconditional, not restricted to clicks
on the anchor as the claim states. -/
theorem C3_counterexample :
    sAcTrue.autoClose = AutoClose.abool true ∧ sAcTrue._open = true ∧
    evRightOutside.button = 2 ∧
    eventFromToggle sAcTrue evRightOutside = false ∧
    eventFromMenu sAcTrue evRightOutside = false ∧
    (closeFromClick sAcTrue evRightOutside)._open = true :=
  ⟨rfl, rfl, rfl, rfl, rfl, rfl⟩

/-- C3 (amended): with `autoClose = true` and the dropdown open, a click
closes the dropdown iff its button is not `2` and it does not originate
from the anchor/toggle; `button = 2` clicks are exempt regardless of
origin. -/
theorem C3_amended_close_iff (s : St) (ev : ClickEvent) (ho : s._open = true)
    (ha : s.autoClose = .abool true) :
    (closeFromClick s ev)._open = (ev.button == 2 || ev.fromToggle) := by
  by_cases hb : ev.button = 2
  · simp [closeFromClick, hb, ho]
  · by_cases ht : ev.fromToggle
    · simp [closeFromClick, eventFromToggle, hb, ht, ho]
    · simp only [Bool.not_eq_true] at ht
      simp [closeFromClick, eventFromToggle, ha, AutoClose.truthy, hb, ht,
        close_open]

/-- C3 witness: the amended dismissal rule evaluated on the concrete open
dropdown for a primary outside click (closes) and a secondary outside
click (stays open). -/
theorem C3_witness :
    (closeFromClick sAcTrue evOutside)._open
        = (evOutside.button == 2 || evOutside.fromToggle) ∧
    (closeFromClick sAcTrue evRightOutside)._open
        = (evRightOutside.button == 2 || evRightOutside.fromToggle) :=
  ⟨C3_amended_close_iff sAcTrue evOutside rfl rfl,
    C3_amended_close_iff sAcTrue evRightOutside rfl rfl⟩

/-- C2: the placement branch of `ngOnChanges` is dead code.  The source
reads the method `isFirstChange` without calling it (line 180), so the
guard `changes.placement && !changes.placement.isFirstChange` never
holds: a placement-only rebinding leaves the state untouched — even a
non-first change (`firstChange = false`) — while a genuine re-application
(`_applyPlacementClasses()`) on the same state would switch the host
class from `dropdown` to `dropup`. -/
theorem C2_placement_branch_dead :
    (∀ (s : St) (ch : SimpleChange), ngOnChanges s ⟨none, some ch⟩ = s) ∧
    ngOnChanges c2s c2chs = c2s ∧
    (ngOnChanges c2s c2chs).hostClass = some "dropdown" ∧
    (applyPlacementClasses c2s none).hostClass = some "dropup" := by
    refine ⟨?_, rfl, rfl, rfl⟩
    intro s ch
    simp [ngOnChanges, placementChangeGuard, isFirstChangeRefTruthy]

/-- C1: `ngOnDestroy` never touches the live document-click listeners
(it only resets the container and releases the zone subscription), so a
dropdown destroyed while open keeps its outside-click subscription alive:
after `open()` there is one live listener, and after `ngOnDestroy` there
is still one. -/
theorem C1_destroy_leaks_listener :
    (∀ s : St, (ngOnDestroy s).liveSubs = s.liveSubs) ∧
    s1open._open = true ∧ s1open.liveSubs = [0] ∧
    (ngOnDestroy s1open).liveSubs = [0] ∧
    (ngOnDestroy s1open).zoneSub = false := by
  refine ⟨?_, rfl, rfl, rfl, rfl⟩
  intro s
  simp [ngOnDestroy]

/-! ### The reachability invariant (claim C4) -/

lemma close_bodyContainer_of_inv (s : St)
    (h1 : s.bodyContainer = true → s._open = true) :
    (close s).bodyContainer = false := by
  by_cases ho : s._open
  · simp [close, ho]
  · simp only [Bool.not_eq_true] at ho
    rw [close_of_closed s ho]
    cases hb : s.bodyContainer
    · rfl
    · rw [h1 hb] at ho
      cases ho

lemma close_liveSubs_of_open (s : St) (ho : s._open = true) :
    (close s).liveSubs =
      (match s.outsideClickListener with
        | none => s.liveSubs
        | some id => s.liveSubs.erase id) := by
  cases hl : s.outsideClickListener <;>
    simp [close, ho, callOutsideClickListener, hl]

lemma close_liveSubs_of_inv (s : St) (h : CtrlInv s) :
    (close s).liveSubs = [] := by
  obtain ⟨h1, h2, h3, h4⟩ := h
  by_cases ho : s._open
  · rw [close_liveSubs_of_open s ho]
    rcases h4 with h4 | ⟨id, hid, hsub⟩
    · cases hl : s.outsideClickListener <;> simp [h4]
    · rw [hid]
      simp [hsub]
  · simp only [Bool.not_eq_true] at ho
    rw [close_of_closed s ho]
    exact h3 ho

lemma ctrlInv_close (s : St) (h : CtrlInv s) : CtrlInv (close s) := by
  refine ⟨?_, ?_, ?_, ?_⟩
  · rw [close_bodyContainer_of_inv s h.1]
    intro hb
    cases hb
  · rw [close_open s]
    intro hb
    cases hb
  · intro _
    exact close_liveSubs_of_inv s h
  · left
    exact close_liveSubs_of_inv s h

lemma ctrlInv_openDd (env : Env) (s : St) (h : CtrlInv s) :
    CtrlInv (openDd env s) := by
  by_cases ho : s._open
  · rw [openDd_of_open env s ho]
    exact h
  · simp only [Bool.not_eq_true] at ho
    have hsubs : s.liveSubs = [] := h.2.2.1 ho
    refine ⟨?_, ?_, ?_, ?_⟩
    · intro _
      exact openDd_open env s
    · intro _
      simp [openDd, ho, registerListener]
    · intro hcontra
      rw [openDd_open env s] at hcontra
      cases hcontra
    · right
      exact ⟨s.nextId, by simp [openDd, ho, registerListener],
        by simp [openDd, ho, registerListener, hsubs]⟩

lemma ctrlInv_toggle (env : Env) (s : St) (h : CtrlInv s) :
    CtrlInv (toggle env s) := by
  unfold toggle
  split
  · exact ctrlInv_close s h
  · exact ctrlInv_openDd env s h

lemma closeFromClick_cases (s : St) (ev : ClickEvent) :
    closeFromClick s ev = s ∨ closeFromClick s ev = close s := by
  unfold closeFromClick
  split
  · split
    · right; rfl
    · split
      · right; rfl
      · split
        · right; rfl
        · left; rfl
  · left; rfl

lemma ctrlInv_closeFromClick (s : St) (ev : ClickEvent) (h : CtrlInv s) :
    CtrlInv (closeFromClick s ev) := by
  rcases closeFromClick_cases s ev with hc | hc <;> rw [hc]
  · exact h
  · exact ctrlInv_close s h

lemma ctrlInv_closeFromOutsideEsc (s : St) (h : CtrlInv s) :
    CtrlInv (closeFromOutsideEsc s) := by
  unfold closeFromOutsideEsc
  split
  · exact ctrlInv_close s h
  · exact h

lemma ctrlInv_positionMenu (env : Env) (s : St) (h : CtrlInv s) :
    CtrlInv (positionMenu env s) := by
  obtain ⟨h1, h2, h3, h4⟩ := h
  refine ⟨?_, ?_, ?_, ?_⟩ <;>
    simp only [positionMenu_open, positionMenu_bodyContainer,
      positionMenu_liveSubs, positionMenu_listener]
  · exact h1
  · exact h2
  · exact h3
  · exact h4

lemma ctrlInv_applyContainer_of_open (s : St) (ho : s._open = true)
    (h : CtrlInv s) : CtrlInv (applyContainer s) := by
  obtain ⟨h1, h2, h3, h4⟩ := h
  refine ⟨?_, ?_, ?_, ?_⟩
  · intro _
    simp [ho]
  · intro _
    simp [h2 ho]
  · intro hc
    simp [ho] at hc
  · simpa using h4

lemma ctrlInv_inputs (s : St) (pl : PlacementArray) (ct : Option ContainerSel)
    (ac : AutoClose) (h : CtrlInv s) :
    CtrlInv { s with placement := pl, container := ct, autoClose := ac } := by
  obtain ⟨h1, h2, h3, h4⟩ := h
  exact ⟨h1, h2, h3, h4⟩

lemma ctrlInv_ngOnChanges (s : St) (chs : SimpleChanges) (h : CtrlInv s) :
    CtrlInv (ngOnChanges s chs) := by
  have hguard : placementChangeGuard chs.placement = false := by
    unfold placementChangeGuard isFirstChangeRefTruthy
    cases chs.placement <;> simp
  unfold ngOnChanges
  rw [hguard]
  simp only [Bool.false_eq_true, if_false]
  split
  · rename_i hcond
    have ho : s._open = true := by
      rcases Bool.and_eq_true_iff.mp hcond with ⟨_, h2⟩
      exact h2
    exact ctrlInv_applyContainer_of_open s ho h
  · exact h

lemma ctrlInv_ngOnDestroy (s : St) (h : CtrlInv s) :
    CtrlInv (ngOnDestroy s) := by
  obtain ⟨h1, h2, h3, h4⟩ := h
  refine ⟨?_, ?_, ?_, ?_⟩
  · simp [ngOnDestroy]
  · intro ho
    simp only [ngOnDestroy] at ho ⊢
    simp at ho ⊢
    exact h2 ho
  · intro ho
    simp only [ngOnDestroy] at ho ⊢
    simp at ho ⊢
    exact h3 ho
  · simp only [ngOnDestroy]
    simpa using h4

lemma ctrlInv_init (cfg : Config) (mp : Bool) :
    CtrlInv (ngOnInit (initState cfg mp)) := by
  unfold CtrlInv ngOnInit
  by_cases ho : cfg._open
  · simp [registerListener, initState, ho]
  · simp [initState, ho]

/-- Every reachable controller state satisfies the safety invariant. -/
lemma reachable_inv (env : Env) (s : St) (h : Reachable env s) : CtrlInv s := by
  induction h with
  | init cfg mp => exact ctrlInv_init cfg mp
  | openStep t _ ih => exact ctrlInv_openDd env t ih
  | closeStep t _ ih => exact ctrlInv_close t ih
  | toggleStep t _ ih => exact ctrlInv_toggle env t ih
  | clickStep t ev _ ih => exact ctrlInv_closeFromClick t ev ih
  | escStep t _ ih => exact ctrlInv_closeFromOutsideEsc t ih
  | stableStep t _ ih => exact ctrlInv_positionMenu env t ih
  | inputChange t pl ct ac chs _ ih =>
      exact ctrlInv_ngOnChanges _ chs (ctrlInv_inputs t pl ct ac ih)
  | destroyStep t _ ih => exact ctrlInv_ngOnDestroy t ih

/-- C4: In every reachable state the detached body container exists only
while open; `close()` always leaves no body container (`'inline'`) and
zero live outside-click listeners; in particular `open(); close();` does
so too. -/
theorem C4_container_invariant (env : Env) (s : St) (h : Reachable env s) :
    (s.bodyContainer = true → s._open = true) ∧
    (close s).bodyContainer = false ∧ (close s).liveSubs = [] ∧
    (close (openDd env s)).bodyContainer = false ∧
    (close (openDd env s)).liveSubs = [] := by
  have hI := reachable_inv env s h
  have hI2 := ctrlInv_openDd env s hI
  exact ⟨hI.1, close_bodyContainer_of_inv s hI.1, close_liveSubs_of_inv s hI,
    close_bodyContainer_of_inv _ hI2.1, close_liveSubs_of_inv _ hI2⟩

/-- C4 witness: the invariant and the `open(); close();` round trip on
the concrete freshly-initialised dropdown. -/
theorem C4_witness :
    (s0.bodyContainer = true → s0._open = true) ∧
    (close s0).bodyContainer = false ∧ (close s0).liveSubs = [] ∧
    (close (openDd env0 s0)).bodyContainer = false ∧
    (close (openDd env0 s0)).liveSubs = [] :=
  C4_container_invariant env0 s0 (Reachable.init cfgDefault true)
